import Mathlib

/-!
Formal model of the Generation Orchestrator of the
`elastic_integrations_airgapped` repository.

The model is a shallow embedding of `src/generator/main.py`
(class `DataGenerator` and the per-task loop `_run_generator`) together
with the static integration catalog
(`src/docker/generator/integrations/__init__.py`, `AVAILABLE_INTEGRATIONS`).

Conventions of the embedding:
- Python floats carrying rates and time intervals are modelled as `ℚ`.
- Python dicts are modelled as association lists with dict semantics
  (`dict_get` returns the binding, `dict_set` updates in place or appends).
- A call of `ElasticsearchClient.bulk_index` either returns normally or
  raises; this binary outcome is modelled as a `Bool` supplied by the
  environment (`sinkOk`).  Likewise a `generator.generate()` call either
  returns a record or raises (`genOk`).
- The per-task thread is modelled in two complementary ways: a functional
  trace model (`run_loop` / `run_task`) that records batches, counters and
  elapsed sleep time for a given sequence of iteration outcomes, and a
  timing model (`loop_exit_time`) that tracks exactly when the loop-top
  cancellation check `while not stop_event.is_set()` can observe a
  cancellation signal.
- All modelled operations are total Lean functions: every Python code path
  of the orchestrator operations returns normally (no `raise` statement),
  which totality reflects.
-/

namespace ElasticGen

/-- Fixed flush threshold, `batch_size = 10` at `src/generator/main.py:123`. -/
def batch_size : Nat := 10

/-- Sleep interval computed at `src/generator/main.py:122`:
`sleep_interval = 1.0 / state.events_per_second if state.events_per_second > 0 else 1.0`. -/
def sleep_interval (eps : ℚ) : ℚ :=
  if 0 < eps then 1 / eps else 1

/-- Environment outcome of one iteration of the emission loop: whether the
`generator.generate()` call returns normally, and, if a flush happens in this
iteration, whether the `bulk_index` call returns normally. -/
structure GenStep where
  genOk : Bool
  sinkOk : Bool
deriving DecidableEq

/-- Task-local state of one run of `_run_generator`
(`src/generator/main.py:119`): the length of the local `pending_events`
list, the task's `state.total_events` counter, the trace of sink calls
made so far (batch size and outcome of each `bulk_index` call), the
accumulated sleeping time, and the `state.running` flag. -/
structure TaskState where
  pending : Nat
  total_events : Nat
  flushes : List (Nat × Bool)
  time : ℚ
  running : Bool
deriving DecidableEq

/-- Initial task state on entry to `_run_generator`: empty `pending_events`,
`total_events = 0` (fresh `IntegrationState`), no sink calls yet,
`running = True` (set by `start_integration`). -/
def init_task_state : TaskState :=
  { pending := 0, total_events := 0, flushes := [], time := 0, running := true }

/-- One iteration of the `while not stop_event.is_set()` body at
`src/generator/main.py:126-147`.  If `generate()` raises (`genOk = false`)
the outer `except` catches it and sleeps a fixed 1 second; nothing else
happens.  Otherwise the event is appended; when the batch reaches
`batch_size` it is flushed: `bulk_index` is attempted, `total_events` is
incremented by the batch size only when that call returns normally (the
increment at line 139 sits after the call inside the same `try`), any
exception is swallowed, and the batch is dropped either way; then the task
sleeps `sleep_interval`. -/
def run_iteration (interval : ℚ) (st : TaskState) (step : GenStep) : TaskState :=
  if step.genOk then
    let p := st.pending + 1
    if batch_size ≤ p then
      { st with
        pending := 0
        total_events := st.total_events + (if step.sinkOk then p else 0)
        flushes := st.flushes ++ [(p, step.sinkOk)]
        time := st.time + interval }
    else
      { st with pending := p, time := st.time + interval }
  else
    { st with time := st.time + 1 }

/-- The emission loop run over a finite sequence of iteration outcomes (the
iterations executed before the loop-top check observes cancellation). -/
def run_loop (interval : ℚ) (steps : List GenStep) (st : TaskState) : TaskState :=
  steps.foldl (run_iteration interval) st

/-- The drain step at `src/generator/main.py:149-155`: after the loop
exits, a non-empty remaining batch is flushed exactly once with the same
best-effort semantics (`total_events` advances only when `bulk_index`
returns normally; an exception is swallowed). -/
def drain (ok : Bool) (st : TaskState) : TaskState :=
  if 0 < st.pending then
    { st with
      total_events := st.total_events + (if ok then st.pending else 0)
      flushes := st.flushes ++ [(st.pending, ok)] }
  else st

/-- A complete run of `_run_generator` for a task whose cancellation is
observed after `steps`: the loop body for each iteration, then the drain,
then `state.running = False` at `src/generator/main.py:157`. -/
def run_task (eps : ℚ) (steps : List GenStep) (drainOk : Bool) : TaskState :=
  { drain drainOk (run_loop (sleep_interval eps) steps init_task_state) with running := false }

/-- Timing model of the emission loop, abstracted from
`src/generator/main.py:126-147`: starting a loop-top check at time `t`,
the loop exits as soon as the check `stop_event.is_set()` is true, which
holds exactly when the cancellation instant `cancel_time` is at or before
the current time (the event is level-triggered).  Otherwise the iteration
runs and, because `time.sleep(sleep_interval)` is not interruptible by the
event, the next loop-top check happens only a full `interval` later.
Generation and flush work is treated as instantaneous and every iteration
is assumed successful; the `Nat` argument is fuel bounding the number of
iterations considered. -/
def loop_exit_time (interval cancel_time : ℚ) : Nat → ℚ → Option ℚ
  | 0, _ => none
  | n + 1, t =>
    if cancel_time ≤ t then some t
    else loop_exit_time interval cancel_time n (t + interval)

/-! Orchestrator model: `DataGenerator` from `src/generator/main.py`. -/

/-- Lookup in a Python-dict-like association list. -/
def dict_get {α : Type} (d : List (String × α)) (k : String) : Option α :=
  match d with
  | [] => none
  | (k1, v) :: rest => if k = k1 then some v else dict_get rest k

/-- Update-or-insert in a Python-dict-like association list: an existing
binding is replaced in place, a new key is appended (Python dicts preserve
insertion order). -/
def dict_set {α : Type} (d : List (String × α)) (k : String) (v : α) :
    List (String × α) :=
  match d with
  | [] => [(k, v)]
  | (k1, v1) :: rest =>
    if k = k1 then (k, v) :: rest else (k1, v1) :: dict_set rest k v

def sWindows : String := "windows"

def sSecurity : String := "security"

def sSystem : String := "system"

def sApplication : String := "application"

def sNginx : String := "nginx"

def sAccess : String := "access"

def sError : String := "error"

def sCiscoAsa : String := "cisco_asa"

def sLog : String := "log"

/-- The static catalog `AVAILABLE_INTEGRATIONS` of
`src/docker/generator/integrations/__init__.py:19-68`, reduced to the
part read by the orchestrator: each integration name with its dataset
names (the generator classes themselves are modelled by the task loop). -/
def AVAILABLE_INTEGRATIONS : List (String × List String) :=
  [(sWindows, [sSecurity, sSystem, sApplication]),
   (sNginx, [sAccess, sError]),
   (sCiscoAsa, [sLog])]

/-- Whether `(name, dataset)` passes the catalog validation of
`src/generator/main.py:87-92`. -/
def catalog_has (name dataset : String) : Bool :=
  match dict_get AVAILABLE_INTEGRATIONS name with
  | none => false
  | some datasets => datasets.contains dataset

/-- Registry key built at `src/generator/main.py:81`:
`key = f"{integration_name}:{dataset}"`. -/
def registry_key (name dataset : String) : String :=
  name ++ ":" ++ dataset

/-- The registry-visible fields of `IntegrationState`
(`src/generator/main.py:37-47`); the thread handle is not modelled, and
the `stop_event` is modelled by its level-triggered signalled flag. -/
structure IntegrationState where
  name : String
  dataset : String
  enabled : Bool
  events_per_second : ℚ
  total_events : Nat
  running : Bool
  stop_requested : Bool
deriving DecidableEq

/-- The orchestrator state: the registry `self.integrations`
(`src/generator/main.py:60`). -/
structure DataGenerator where
  integrations : List (String × IntegrationState)
deriving DecidableEq

/-- The duplicate check of `src/generator/main.py:83`:
`key in self.integrations and self.integrations[key].running`. -/
def running_at (g : DataGenerator) (key : String) : Bool :=
  match dict_get g.integrations key with
  | some st => st.running
  | none => false

/-- The fresh `IntegrationState` constructed at `src/generator/main.py:98-105`:
`enabled = True`, `running = True`, `total_events = 0` (dataclass default),
stop event newly created and not signalled. -/
def fresh_state (name dataset : String) (eps : ℚ) : IntegrationState :=
  { name := name, dataset := dataset, enabled := true,
    events_per_second := eps, total_events := 0,
    running := true, stop_requested := false }

/-- `DataGenerator.start_integration` (`src/generator/main.py:79-117`):
reject when the key is registered and running; reject when the name or
dataset is not in the catalog; otherwise register a fresh running state
(with `total_events = 0`) under the key and report success.  The spawned
thread's effects are modelled separately by `Op.task_flush` and
`Op.task_finish`. -/
def start_integration (g : DataGenerator) (name dataset : String) (eps : ℚ) :
    Bool × DataGenerator :=
  if running_at g (registry_key name dataset) then (false, g)
  else
    match dict_get AVAILABLE_INTEGRATIONS name with
    | none => (false, g)
    | some datasets =>
      if datasets.contains dataset then
        (true,
          ⟨dict_set g.integrations (registry_key name dataset)
            (fresh_state name dataset eps)⟩)
      else (false, g)

/-- `DataGenerator.stop_integration` (`src/generator/main.py:159-171`):
reject when the key is not registered; otherwise signal the task's stop
event, clear `enabled`, and report success.  The entry is never removed. -/
def stop_integration (g : DataGenerator) (name dataset : String) :
    Bool × DataGenerator :=
  match dict_get g.integrations (registry_key name dataset) with
  | none => (false, g)
  | some st =>
    (true,
      ⟨dict_set g.integrations (registry_key name dataset)
        { st with stop_requested := true, enabled := false }⟩)

/-- `DataGenerator.stop_all` (`src/generator/main.py:173-182`): signal
every registered task's stop event (then join threads, a timing effect not
visible in the registry).  No entry is removed and `enabled` is not
touched. -/
def stop_all (g : DataGenerator) : DataGenerator :=
  ⟨g.integrations.map (fun p => (p.1, { p.2 with stop_requested := true }))⟩

/-- One entry of the snapshot returned by `get_status`
(`src/generator/main.py:188-195`). -/
structure StatusEntry where
  name : String
  dataset : String
  enabled : Bool
  running : Bool
  eps : ℚ
  total_events : Nat
deriving DecidableEq

/-- The per-state snapshot record built at `src/generator/main.py:188-195`;
`eps` reports `state.events_per_second` verbatim. -/
def status_of (st : IntegrationState) : StatusEntry :=
  { name := st.name, dataset := st.dataset, enabled := st.enabled,
    running := st.running, eps := st.events_per_second,
    total_events := st.total_events }

/-- `DataGenerator.get_status` (`src/generator/main.py:184-196`): a
read-only snapshot of every registry entry. -/
def get_status (g : DataGenerator) : List (String × StatusEntry) :=
  g.integrations.map (fun p => (p.1, status_of p.2))

/-- Registry effect of the current task thread of `key` completing a
successful flush of `n` events: `state.total_events += n`
(`src/generator/main.py:139` and `:153`; the increment is skipped when
`bulk_index` raises). -/
def task_event_flush (g : DataGenerator) (key : String) (n : Nat) : DataGenerator :=
  match dict_get g.integrations key with
  | none => g
  | some st =>
    ⟨dict_set g.integrations key { st with total_events := st.total_events + n }⟩

/-- Registry effect of the current task thread of `key` finishing its
drain: `state.running = False` (`src/generator/main.py:157`). -/
def task_event_finish (g : DataGenerator) (key : String) : DataGenerator :=
  match dict_get g.integrations key with
  | none => g
  | some st =>
    ⟨dict_set g.integrations key { st with running := false }⟩

/-- The alphabet of registry-mutating events: the orchestrator operations
`start_integration`, `stop_integration`, `stop_all`, and the two
registry-visible effects of task threads.  `get_status` is pure and needs
no event. -/
inductive Op where
  | start (name dataset : String) (eps : ℚ)
  | stop (name dataset : String)
  | stopAll
  | task_flush (key : String) (n : Nat)
  | task_finish (key : String)

/-- Apply one event to the orchestrator state. -/
def apply_op (g : DataGenerator) : Op → DataGenerator
  | .start n d e => (start_integration g n d e).2
  | .stop n d => (stop_integration g n d).2
  | .stopAll => stop_all g
  | .task_flush k n => task_event_flush g k n
  | .task_finish k => task_event_finish g k

/-- Apply a finite sequence of events in order. -/
def run_ops (g : DataGenerator) (ops : List Op) : DataGenerator :=
  ops.foldl apply_op g

/-- Whether an event is a (possibly re-)start under registry key `k`; the
only event kind that can replace the state object registered under `k`. -/
def touches_key (k : String) : Op → Bool
  | .start n d _ => registry_key n d = k
  | _ => false

/-! Concrete states used by witnesses and counterexamples. -/

/-- A freshly constructed orchestrator: empty registry
(`src/generator/main.py:60`). -/
def empty_gen : DataGenerator := ⟨[]⟩

/-- Name used for an unknown-source request, as in the spec scenario. -/
def sUnknown : String := "unknown_source"

/-- Dataset used for an unknown-source request, as in the spec scenario. -/
def sX : String := "x"

/-- Orchestrator after one accepted start of `(nginx, access)` at rate 1. -/
def g_nginx_running : DataGenerator :=
  (start_integration empty_gen sNginx sAccess 1).2

/-- Orchestrator after that task finished its drain
(`state.running = False`). -/
def g_nginx_stopped : DataGenerator :=
  task_event_finish g_nginx_running (registry_key sNginx sAccess)

/-- A task state with nine buffered events, one short of `batch_size`. -/
def nine_pending : TaskState :=
  { pending := 9, total_events := 0, flushes := [], time := 0, running := true }

/-! Association-list (Python dict) lemmas. -/

theorem dict_get_set_self {α : Type} (d : List (String × α)) (k : String) (v : α) :
    dict_get (dict_set d k v) k = some v := by
  induction d with
  | nil => simp [dict_set, dict_get]
  | cons p rest ih =>
    obtain ⟨k1, v1⟩ := p
    by_cases h : k = k1 <;> simp [dict_set, dict_get, h, ih]

theorem dict_get_set_ne {α : Type} (d : List (String × α)) (k k2 : String) (v : α)
    (h : k2 ≠ k) : dict_get (dict_set d k v) k2 = dict_get d k2 := by
  induction d with
  | nil => simp [dict_set, dict_get, h]
  | cons p rest ih =>
    obtain ⟨k1, v1⟩ := p
    by_cases h1 : k = k1
    · subst h1
      simp [dict_set, dict_get, h]
    · simp [dict_set, dict_get, h1, ih]

theorem dict_get_set_mem {α : Type} (d : List (String × α)) (k k2 : String) (v : α)
    (h : dict_get d k2 ≠ none) : dict_get (dict_set d k v) k2 ≠ none := by
  by_cases hk : k2 = k
  · subst hk
    simp [dict_get_set_self]
  · rw [dict_get_set_ne d k k2 v hk]
    exact h

theorem dict_get_map {α β : Type} (f : α → β) (d : List (String × α)) (k : String) :
    dict_get (d.map (fun p => (p.1, f p.2))) k = (dict_get d k).map f := by
  induction d with
  | nil => simp [dict_get]
  | cons p rest ih =>
    by_cases h : k = p.1 <;> simp [dict_get, h, ih]

theorem dict_get_get_status (g : DataGenerator) (k : String) :
    dict_get (get_status g) k = (dict_get g.integrations k).map status_of :=
  dict_get_map status_of g.integrations k

/-! Behaviour of the drain step, shared by several claims. -/

theorem drain_spec (ok : Bool) (st : TaskState) :
    (drain ok st).flushes
      = st.flushes ++ (if 0 < st.pending then [(st.pending, ok)] else []) ∧
    (drain ok st).total_events
      = st.total_events + (if ok = true ∧ 0 < st.pending then st.pending else 0) ∧
    (drain ok st).running = st.running := by
  by_cases hp : 0 < st.pending
  · cases ok <;> simp [drain, hp]
  · simp [drain, hp]

theorem dict_get_stop_all (g : DataGenerator) (k : String) :
    dict_get (stop_all g).integrations k
      = (dict_get g.integrations k).map
          (fun st : IntegrationState => { st with stop_requested := true }) := by
  unfold stop_all
  exact dict_get_map (fun st : IntegrationState => { st with stop_requested := true })
    g.integrations k

/-- Exit-time analysis of the loop-top cancellation check: whenever the loop
exits at time `t`, the cancellation instant is at or before `t` (the signal
is never observed early), `t` is the start time plus a whole number of
intervals (exits happen only at loop-top), and if the signal was not yet
set at the start time then the exit is within one interval of the signal. -/
theorem loop_exit_time_spec (interval c : ℚ) :
    ∀ (n : Nat) (t0 t : ℚ), loop_exit_time interval c n t0 = some t →
      c ≤ t ∧ (∃ k : Nat, t = t0 + k * interval) ∧ (t0 < c → t < c + interval) := by
  intro n
  induction n with
  | zero =>
    intro t0 t h
    simp [loop_exit_time] at h
  | succ m ih =>
    intro t0 t h
    by_cases hc : c ≤ t0
    · rw [loop_exit_time, if_pos hc] at h
      obtain rfl : t0 = t := by injection h
      refine ⟨hc, ⟨0, by simp⟩, fun hlt => absurd hc (not_le.mpr hlt)⟩
    · rw [loop_exit_time, if_neg hc] at h
      obtain ⟨h1, ⟨k, hk⟩, h3⟩ := ih (t0 + interval) t h
      refine ⟨h1, ⟨k + 1, by rw [hk]; push_cast; ring⟩, fun hlt => ?_⟩
      by_cases h2 : c ≤ t0 + interval
      · cases m with
        | zero => simp [loop_exit_time] at h
        | succ m2 =>
          rw [loop_exit_time, if_pos h2] at h
          obtain rfl : t0 + interval = t := by injection h
          exact add_lt_add_right hlt interval
      · exact h3 (not_le.mp h2)

/-! Claim theorems. -/

/-- C1, counterexample: a run of ten generated events whose single full-batch
flush fails at the sink (`bulk_index` raises) performs exactly one sink call
of size 10, yet leaves `total_events` at 0 — the counter did not advance by
the flushed batch size, because the increment at `src/generator/main.py:139`
sits after the `bulk_index` call inside the same `try` block and is skipped
when that call raises. -/
theorem C1_counterexample :
    (run_task 1 (List.replicate 10 { genOk := true, sinkOk := false }) true).flushes
      = [(10, false)] ∧
    (run_task 1 (List.replicate 10 { genOk := true, sinkOk := false }) true).total_events
      = 0 := by
  decide

/-- C1, amended: for every flush of a full batch and for every drain flush,
the sink failure is swallowed and the batch is dropped, but `total_events`
advances by the flushed batch size only when the sink call succeeds; on a
failed sink call the counter is unchanged, so it reflects load successfully
handed to the sink. -/
theorem C1_amended (interval : ℚ) (st : TaskState) (step : GenStep) (ok : Bool) :
    (step.genOk = true → batch_size ≤ st.pending + 1 →
      (run_iteration interval st step).pending = 0 ∧
      (run_iteration interval st step).flushes
        = st.flushes ++ [(st.pending + 1, step.sinkOk)] ∧
      (run_iteration interval st step).total_events
        = st.total_events + (if step.sinkOk then st.pending + 1 else 0)) ∧
    (0 < st.pending →
      (drain ok st).flushes = st.flushes ++ [(st.pending, ok)] ∧
      (drain ok st).total_events
        = st.total_events + (if ok then st.pending else 0)) := by
  constructor
  · intro hg hfull
    refine ⟨?_, ?_, ?_⟩ <;> simp [run_iteration, hg, hfull]
  · intro hp
    constructor <;> simp [drain, hp]

/-- Witness for the amended C1 at a concrete input: with nine pending events
a successful generation fills the batch; on a successful sink call the
counter advances by ten, and a drain of the nine pending events with a
successful sink call advances it by nine. -/
theorem C1_amended_witness :
    batch_size ≤ nine_pending.pending + 1 ∧
    (run_iteration 1 nine_pending { genOk := true, sinkOk := true }).total_events
      = nine_pending.total_events + (if (true : Bool) then nine_pending.pending + 1 else 0) ∧
    (drain true nine_pending).total_events
      = nine_pending.total_events + (if (true : Bool) then nine_pending.pending else 0) :=
  ⟨by decide,
   ((C1_amended 1 nine_pending { genOk := true, sinkOk := true } true).1 rfl (by decide)).2.2,
   ((C1_amended 1 nine_pending { genOk := true, sinkOk := true } true).2 (by decide)).2⟩

/-- C2, counterexample: at rate 0.1 the interval is 10 seconds; a
cancellation signalled at time 1 — during the sleep that spans the interval
(0, 10) — ends the loop only at time 10, after the full interval has
elapsed, because `time.sleep(sleep_interval)` at `src/generator/main.py:144`
is not interruptible by the stop event and the check
`while not stop_event.is_set()` happens only at loop-top.  The stop-to-exit
delay here is 9 seconds and grows as `1/rate`, so it is not bounded
independently of the configured rate. -/
theorem C2_counterexample :
    sleep_interval (1/10) = 10 ∧
    loop_exit_time (sleep_interval (1/10)) 1 2 0 = some 10 := by
  have h : sleep_interval (1/10 : ℚ) = 10 := by norm_num [sleep_interval]
  exact ⟨h, by rw [h]; norm_num [loop_exit_time]⟩

/-- C2, amended: a cancellation signal arriving during the per-iteration
sleep is never observed early: the loop exits only at the next loop-top
check, a whole multiple of the interval, so the signal-to-exit delay is
bounded by one full interval `1/rate` — a bound that depends on the
configured rate rather than being independent of it. -/
theorem C2_amended (eps c t : ℚ) (n : Nat) (hc : 0 < c)
    (h : loop_exit_time (sleep_interval eps) c n 0 = some t) :
    c ≤ t ∧ t < c + sleep_interval eps ∧ ∃ k : Nat, t = k * sleep_interval eps := by
  obtain ⟨h1, ⟨k, hk⟩, h3⟩ := loop_exit_time_spec (sleep_interval eps) c n 0 t h
  exact ⟨h1, h3 hc, ⟨k, by rw [hk]; ring⟩⟩

/-- Witness for the amended C2: at rate 1 a cancellation at time 1/2 is
observed at the loop-top at time 1. -/
theorem C2_amended_witness :
    (0 : ℚ) < 1/2 ∧
    ((1/2 : ℚ) ≤ 1 ∧ (1 : ℚ) < 1/2 + sleep_interval 1 ∧
      ∃ k : Nat, (1 : ℚ) = k * sleep_interval 1) :=
  ⟨by norm_num,
   C2_amended 1 (1/2) 1 2 (by norm_num)
     (by
       have h : sleep_interval (1 : ℚ) = 1 := by norm_num [sleep_interval]
       rw [h]; norm_num [loop_exit_time])⟩

/-- C3, counterexample: at rate 5 the configured interval is 1/5 second,
but an iteration whose `generate()` call raises waits the fixed 1 second of
`time.sleep(1)` at `src/generator/main.py:147`, not one full interval:
1 second is not the configured `1/rate` backoff. -/
theorem C3_counterexample :
    sleep_interval 5 = 1/5 ∧
    (run_iteration (sleep_interval 5) init_task_state
        { genOk := false, sinkOk := true }).time = 1 ∧
    (1 : ℚ) ≠ sleep_interval 5 := by
  refine ⟨by norm_num [sleep_interval], ?_, by norm_num [sleep_interval]⟩
  simp [run_iteration, init_task_state]

/-- C3, amended: an iteration whose generator call raises does not crash
the task and does not propagate the error: it changes nothing except
waiting a fixed 1 second (regardless of the configured `1/rate` interval)
and the loop then continues with the remaining iterations. -/
theorem C3_amended (interval : ℚ) (st : TaskState) (step : GenStep)
    (rest : List GenStep) (h : step.genOk = false) :
    run_iteration interval st step = { st with time := st.time + 1 } ∧
    run_loop interval (step :: rest) st
      = run_loop interval rest { st with time := st.time + 1 } := by
  have h1 : run_iteration interval st step = { st with time := st.time + 1 } := by
    simp [run_iteration, h]
  exact ⟨h1, by simp [run_loop, h1]⟩

/-- Witness for the amended C3 at a concrete input. -/
theorem C3_amended_witness :
    run_iteration (1/2) init_task_state { genOk := false, sinkOk := true }
      = { init_task_state with time := init_task_state.time + 1 } ∧
    run_loop (1/2) [{ genOk := false, sinkOk := true }] init_task_state
      = run_loop (1/2) [] { init_task_state with time := init_task_state.time + 1 } :=
  C3_amended (1/2) init_task_state { genOk := false, sinkOk := true } [] rfl

/-- C6: for every task whose cancellation has been observed after `steps`
iterations, the run exits the loop, flushes a non-empty remaining batch
exactly once (and a counter advance only on sink success, the same
best-effort semantics), only then sets `running` to false, and the recorded
sink-call trace ends with that drain flush — no further sink calls occur. -/
theorem C6 (eps : ℚ) (steps : List GenStep) (drainOk : Bool) :
    (run_task eps steps drainOk).running = false ∧
    (run_task eps steps drainOk).flushes
      = (run_loop (sleep_interval eps) steps init_task_state).flushes
        ++ (if 0 < (run_loop (sleep_interval eps) steps init_task_state).pending
            then [((run_loop (sleep_interval eps) steps init_task_state).pending, drainOk)]
            else []) ∧
    (run_task eps steps drainOk).total_events
      = (run_loop (sleep_interval eps) steps init_task_state).total_events
        + (if drainOk = true ∧ 0 < (run_loop (sleep_interval eps) steps init_task_state).pending
           then (run_loop (sleep_interval eps) steps init_task_state).pending
           else 0) := by
  refine ⟨rfl, ?_, ?_⟩
  · exact (drain_spec drainOk (run_loop (sleep_interval eps) steps init_task_state)).1
  · exact (drain_spec drainOk (run_loop (sleep_interval eps) steps init_task_state)).2.1

/-- C8: for every rate, the sleep interval is `1/rate` when the rate is
positive and `1.0` when it is zero or negative; the computation never
divides by zero (the positive-rate branch is the only one that divides) and
the interval is always strictly positive, so the task never runs
unthrottled. -/
theorem C8 (eps : ℚ) :
    (0 < eps → sleep_interval eps = 1 / eps) ∧
    (eps ≤ 0 → sleep_interval eps = 1) ∧
    0 < sleep_interval eps := by
  refine ⟨fun h => by simp [sleep_interval, h],
          fun h => by simp [sleep_interval, not_lt.mpr h], ?_⟩
  by_cases h : 0 < eps
  · simp [sleep_interval, h]
  · simp [sleep_interval, h]

/-- Witness for C8: concrete rates 2 and -1. -/
theorem C8_witness :
    (0 : ℚ) < 2 ∧ sleep_interval 2 = 1 / 2 ∧
    (-1 : ℚ) ≤ 0 ∧ sleep_interval (-1) = 1 ∧
    0 < sleep_interval 2 :=
  ⟨by norm_num, (C8 2).1 (by norm_num), by norm_num, (C8 (-1)).2.1 (by norm_num),
   (C8 2).2.2⟩

/-- C4: a start of a key whose registered task is running is rejected: it
returns false, leaves the orchestrator completely unchanged, and the key
still maps to the original task — no duplicate task is created. -/
theorem C4 (g : DataGenerator) (n d : String) (e : ℚ) (st : IntegrationState)
    (h1 : dict_get g.integrations (registry_key n d) = some st)
    (h2 : st.running = true) :
    start_integration g n d e = (false, g) ∧
    dict_get (start_integration g n d e).2.integrations (registry_key n d) = some st := by
  have hr : running_at g (registry_key n d) = true := by
    simp [running_at, h1, h2]
  constructor
  · simp [start_integration, hr]
  · simp [start_integration, hr, h1]

/-- Witness for C4: a second start of the already-running `(nginx, access)`
key is rejected and changes nothing. -/
theorem C4_witness :
    start_integration g_nginx_running sNginx sAccess 2 = (false, g_nginx_running) ∧
    dict_get (start_integration g_nginx_running sNginx sAccess 2).2.integrations
      (registry_key sNginx sAccess) = some (fresh_state sNginx sAccess 1) :=
  C4 g_nginx_running sNginx sAccess 2 (fresh_state sNginx sAccess 1) (by decide) rfl

/-- C5, counterexample: a duplicate start of the running `(nginx, access)`
key is a rejected start (it returns false), yet `get_status` afterwards
does contain an entry for that key — the entry registered by the first,
accepted start — so "after a rejected start, status() contains no entry for
that key" does not hold for duplicate-start rejections. -/
theorem C5_counterexample :
    (start_integration g_nginx_running sNginx sAccess 1).1 = false ∧
    dict_get (get_status (start_integration g_nginx_running sNginx sAccess 1).2)
      (registry_key sNginx sAccess)
      = some (status_of (fresh_state sNginx sAccess 1)) := by
  decide

/-- C5, amended: every rejected request returns false as an ordinary result
with no side effect on the registry (the Python code paths contain no
`raise`, which the totality of the model reflects): a start of a pair not
in the catalog, a stop of a key with no registered task, and a start of an
already-running key all return `(false, g)` unchanged; and after a start
rejected because the pair is not in the catalog, `status()` contains no
entry for that key it did not already contain — whereas after a
duplicate-start rejection the pre-existing entry simply remains. -/
theorem C5_amended (g : DataGenerator) (n d : String) (e : ℚ) :
    (catalog_has n d = false → start_integration g n d e = (false, g)) ∧
    (dict_get g.integrations (registry_key n d) = none →
      stop_integration g n d = (false, g)) ∧
    (catalog_has n d = false → dict_get g.integrations (registry_key n d) = none →
      dict_get (get_status (start_integration g n d e).2) (registry_key n d) = none) ∧
    (∀ st, dict_get g.integrations (registry_key n d) = some st → st.running = true →
      start_integration g n d e = (false, g)) := by
  have hstart : catalog_has n d = false → start_integration g n d e = (false, g) := by
    intro hc
    unfold start_integration
    split
    · rfl
    · cases hcat : dict_get AVAILABLE_INTEGRATIONS n with
      | none => rfl
      | some ds =>
        have hds : d ∉ ds := by
          have hc2 : ds.contains d = false := by
            unfold catalog_has at hc
            rw [hcat] at hc
            exact hc
          simpa using hc2
        simp [hds]
  refine ⟨hstart, ?_, ?_, ?_⟩
  · intro h
    simp [stop_integration, h]
  · intro hc hnone
    rw [hstart hc]
    rw [dict_get_get_status, hnone]
    rfl
  · intro st h1 h2
    have hr : running_at g (registry_key n d) = true := by
      simp [running_at, h1, h2]
    simp [start_integration, hr]

/-- Witness for the amended C5: the unknown pair `(unknown_source, x)` is
rejected by start and by stop on an empty orchestrator with no effect and
no status entry, and a duplicate start of the running `(nginx, access)` key
is rejected with no effect. -/
theorem C5_amended_witness :
    start_integration empty_gen sUnknown sX 1 = (false, empty_gen) ∧
    stop_integration empty_gen sUnknown sX = (false, empty_gen) ∧
    dict_get (get_status (start_integration empty_gen sUnknown sX 1).2)
      (registry_key sUnknown sX) = none ∧
    start_integration g_nginx_running sNginx sAccess 3 = (false, g_nginx_running) :=
  ⟨(C5_amended empty_gen sUnknown sX 1).1 (by decide),
   (C5_amended empty_gen sUnknown sX 1).2.1 (by decide),
   (C5_amended empty_gen sUnknown sX 1).2.2.1 (by decide) (by decide),
   (C5_amended g_nginx_running sNginx sAccess 3).2.2.2
     (fresh_state sNginx sAccess 1) (by decide) rfl⟩

/-- C7: starting a catalog-known key whose registered task has stopped
(`running = false`) is accepted: start returns true and registers a
brand-new task state — fresh flags, the new rate, and `total_events = 0` —
rather than resuming the old one. -/
theorem C7 (g : DataGenerator) (n d : String) (e : ℚ) (st : IntegrationState)
    (h1 : dict_get g.integrations (registry_key n d) = some st)
    (h2 : st.running = false)
    (hc : catalog_has n d = true) :
    (start_integration g n d e).1 = true ∧
    dict_get (start_integration g n d e).2.integrations (registry_key n d)
      = some (fresh_state n d e) ∧
    (fresh_state n d e).total_events = 0 := by
  have hr : running_at g (registry_key n d) = false := by
    simp [running_at, h1, h2]
  cases hcat : dict_get AVAILABLE_INTEGRATIONS n with
  | none =>
    unfold catalog_has at hc
    rw [hcat] at hc
    exact absurd hc (by simp)
  | some ds =>
    have hds : d ∈ ds := by
      have hc2 : ds.contains d = true := by
        unfold catalog_has at hc
        rw [hcat] at hc
        exact hc
      simpa using hc2
    refine ⟨?_, ?_, rfl⟩
    · simp [start_integration, hr, hcat, hds]
    · simp [start_integration, hr, hcat, hds, dict_get_set_self]

/-- Witness for C7: restarting the stopped `(nginx, access)` key at rate 7
is accepted and yields a fresh task with `total_events = 0`. -/
theorem C7_witness :
    (start_integration g_nginx_stopped sNginx sAccess 7).1 = true ∧
    dict_get (start_integration g_nginx_stopped sNginx sAccess 7).2.integrations
      (registry_key sNginx sAccess) = some (fresh_state sNginx sAccess 7) ∧
    (fresh_state sNginx sAccess 7).total_events = 0 :=
  C7 g_nginx_stopped sNginx sAccess 7
    { fresh_state sNginx sAccess 1 with running := false } (by decide) rfl (by decide)

/-- Presence of a registry key is preserved by every orchestrator operation
and by every registry-visible task-thread effect: no event deletes an
entry. -/
theorem apply_op_preserves_mem (g : DataGenerator) (op : Op) (k : String)
    (h : dict_get g.integrations k ≠ none) :
    dict_get (apply_op g op).integrations k ≠ none := by
  cases op with
  | start n d e =>
    show dict_get (start_integration g n d e).2.integrations k ≠ none
    unfold start_integration
    split
    · exact h
    · split
      · exact h
      · split
        · exact dict_get_set_mem _ _ _ _ h
        · exact h
  | stop n d =>
    show dict_get (stop_integration g n d).2.integrations k ≠ none
    unfold stop_integration
    split
    · exact h
    · exact dict_get_set_mem _ _ _ _ h
  | stopAll =>
    show dict_get (stop_all g).integrations k ≠ none
    rw [dict_get_stop_all]
    cases hd : dict_get g.integrations k with
    | none => exact absurd hd h
    | some st => simp
  | task_flush k2 m =>
    show dict_get (task_event_flush g k2 m).integrations k ≠ none
    unfold task_event_flush
    split
    · exact h
    · exact dict_get_set_mem _ _ _ _ h
  | task_finish k2 =>
    show dict_get (task_event_finish g k2).integrations k ≠ none
    unfold task_event_finish
    split
    · exact h
    · exact dict_get_set_mem _ _ _ _ h

/-- C9: no operation ever removes a registry entry — after any sequence of
starts, stops, stop-alls, and task-thread effects, every key that was
registered still has an entry in the `status()` snapshot: no eviction
operation exists. -/
theorem C9 (g : DataGenerator) (ops : List Op) (k : String)
    (h : dict_get g.integrations k ≠ none) :
    dict_get (get_status (run_ops g ops)) k ≠ none := by
  have main : ∀ (l : List Op) (g2 : DataGenerator),
      dict_get g2.integrations k ≠ none →
      dict_get (run_ops g2 l).integrations k ≠ none := by
    intro l
    induction l with
    | nil => intro g2 hg; exact hg
    | cons op rest ih =>
      intro g2 hg
      exact ih _ (apply_op_preserves_mem g2 op k hg)
  rw [dict_get_get_status]
  cases hd : dict_get (run_ops g ops).integrations k with
  | none => exact absurd hd (main ops g h)
  | some st => simp

/-- An accepted start registers exactly the fresh task state under its
registry key. -/
theorem start_integration_true (g : DataGenerator) (n d : String) (e : ℚ)
    (h : (start_integration g n d e).1 = true) :
    (start_integration g n d e).2
      = ⟨dict_set g.integrations (registry_key n d) (fresh_state n d e)⟩ := by
  by_cases hr : running_at g (registry_key n d) = true
  · simp [start_integration, hr] at h
  · cases hcat : dict_get AVAILABLE_INTEGRATIONS n with
    | none => simp [start_integration, hr, hcat] at h
    | some ds =>
      by_cases hds : d ∈ ds
      · simp [start_integration, hr, hcat, hds]
      · simp [start_integration, hr, hcat, hds] at h

/-- No event other than a start under the same registry key changes the
`events_per_second` field of a registered entry. -/
theorem apply_op_preserves_eps (g : DataGenerator) (op : Op) (k : String)
    (st : IntegrationState) (hop : touches_key k op = false)
    (h : dict_get g.integrations k = some st) :
    ∃ st2, dict_get (apply_op g op).integrations k = some st2 ∧
      st2.events_per_second = st.events_per_second := by
  cases op with
  | start n d e =>
    have hne : ¬ registry_key n d = k := by
      intro heq
      simp [touches_key, heq] at hop
    show ∃ st2, dict_get (start_integration g n d e).2.integrations k = some st2 ∧ _
    unfold start_integration
    split
    · exact ⟨st, h, rfl⟩
    · split
      · exact ⟨st, h, rfl⟩
      · split
        · refine ⟨st, ?_, rfl⟩
          rw [dict_get_set_ne _ _ _ _ (fun heq => hne heq.symm)]
          exact h
        · exact ⟨st, h, rfl⟩
  | stop n d =>
    show ∃ st2, dict_get (stop_integration g n d).2.integrations k = some st2 ∧ _
    unfold stop_integration
    cases hd : dict_get g.integrations (registry_key n d) with
    | none => exact ⟨st, h, rfl⟩
    | some st1 =>
      by_cases hk : registry_key n d = k
      · subst hk
        obtain rfl : st1 = st := by rw [hd] at h; injection h
        exact ⟨_, dict_get_set_self _ _ _, rfl⟩
      · refine ⟨st, ?_, rfl⟩
        rw [dict_get_set_ne _ _ _ _ (fun heq => hk heq.symm)]
        exact h
  | stopAll =>
    show ∃ st2, dict_get (stop_all g).integrations k = some st2 ∧ _
    rw [dict_get_stop_all, h]
    exact ⟨_, rfl, rfl⟩
  | task_flush k2 m =>
    show ∃ st2, dict_get (task_event_flush g k2 m).integrations k = some st2 ∧ _
    unfold task_event_flush
    cases hd : dict_get g.integrations k2 with
    | none => exact ⟨st, h, rfl⟩
    | some st1 =>
      by_cases hk : k2 = k
      · subst hk
        obtain rfl : st1 = st := by rw [hd] at h; injection h
        exact ⟨_, dict_get_set_self _ _ _, rfl⟩
      · refine ⟨st, ?_, rfl⟩
        rw [dict_get_set_ne _ _ _ _ (fun heq => hk heq.symm)]
        exact h
  | task_finish k2 =>
    show ∃ st2, dict_get (task_event_finish g k2).integrations k = some st2 ∧ _
    unfold task_event_finish
    cases hd : dict_get g.integrations k2 with
    | none => exact ⟨st, h, rfl⟩
    | some st1 =>
      by_cases hk : k2 = k
      · subst hk
        obtain rfl : st1 = st := by rw [hd] at h; injection h
        exact ⟨_, dict_get_set_self _ _ _, rfl⟩
      · refine ⟨st, ?_, rfl⟩
        rw [dict_get_set_ne _ _ _ _ (fun heq => hk heq.symm)]
        exact h

/-- Over any sequence of events none of which is a start under key `k`, the
registered `events_per_second` of `k` never changes. -/
theorem run_ops_preserves_eps (ops : List Op) (g : DataGenerator) (k : String)
    (r : ℚ) (hops : ∀ op ∈ ops, touches_key k op = false)
    (h : ∃ st, dict_get g.integrations k = some st ∧ st.events_per_second = r) :
    ∃ st, dict_get (run_ops g ops).integrations k = some st ∧
      st.events_per_second = r := by
  induction ops generalizing g with
  | nil => exact h
  | cons op rest ih =>
    obtain ⟨st, hget, heps⟩ := h
    obtain ⟨st2, hget2, heps2⟩ :=
      apply_op_preserves_eps g op k st (hops op (List.mem_cons_self op rest)) hget
    exact ih _ (fun o ho => hops o (List.mem_cons_of_mem op ho))
      ⟨st2, hget2, heps2.trans heps⟩

/-- C10: after an accepted start of a key at rate `r`, the rate reported by
`status()` for that key is exactly `r` and stays `r` across any sequence of
stops, stop-alls, and task-thread effects (anything except another start of
the same key) — even when `r ≤ 0`, in which case the task actually
throttles with a fixed interval of `1.0` second, so the reported rate
differs from the effective one. -/
theorem C10 (g : DataGenerator) (n d : String) (r : ℚ) (ops : List Op)
    (hstart : (start_integration g n d r).1 = true)
    (hops : ∀ op ∈ ops, touches_key (registry_key n d) op = false) :
    (∃ se, dict_get (get_status (run_ops (start_integration g n d r).2 ops))
        (registry_key n d) = some se ∧ se.eps = r) ∧
    (r ≤ 0 → sleep_interval r = 1 ∧ r ≠ 1) := by
  constructor
  · have h0 : ∃ st, dict_get (start_integration g n d r).2.integrations
        (registry_key n d) = some st ∧ st.events_per_second = r := by
      rw [start_integration_true g n d r hstart]
      exact ⟨fresh_state n d r, dict_get_set_self _ _ _, rfl⟩
    obtain ⟨st, hget, heps⟩ :=
      run_ops_preserves_eps ops _ (registry_key n d) r hops h0
    refine ⟨status_of st, ?_, heps⟩
    rw [dict_get_get_status, hget]
    rfl
  · intro hr
    refine ⟨by simp [sleep_interval, not_lt.mpr hr], fun h1 => ?_⟩
    rw [h1] at hr
    norm_num at hr

/-- Witness for C10: start `(nginx, access)` at the nonsensical rate -2,
then stop it; the status still reports rate -2 while the task throttles at
a fixed 1-second interval. -/
theorem C10_witness :
    (∃ se, dict_get (get_status (run_ops
        (start_integration empty_gen sNginx sAccess (-2)).2
        [Op.stop sNginx sAccess])) (registry_key sNginx sAccess)
        = some se ∧ se.eps = -2) ∧
    ((-2 : ℚ) ≤ 0 → sleep_interval (-2) = 1 ∧ (-2 : ℚ) ≠ 1) :=
  C10 empty_gen sNginx sAccess (-2) [Op.stop sNginx sAccess] (by decide)
    (by
      intro op hop
      rw [List.mem_singleton] at hop
      subst hop
      rfl)

/-- Witness for C9: the running `(nginx, access)` entry survives a stop, a
stop-all, and its task finishing. -/
theorem C9_witness :
    dict_get (get_status (run_ops g_nginx_running
      [Op.stop sNginx sAccess, Op.stopAll,
       Op.task_finish (registry_key sNginx sAccess)]))
      (registry_key sNginx sAccess) ≠ none :=
  C9 g_nginx_running
    [Op.stop sNginx sAccess, Op.stopAll, Op.task_finish (registry_key sNginx sAccess)]
    (registry_key sNginx sAccess) (by decide)

end ElasticGen
